import Mathlib

/-!
Verification of the beacon SSE ingestion client
(`beacon-sse-client-event/main.py` and `beacon-sse-client-event/sse_client.py`)
against its natural-language specification.

The development shallowly embeds the encoding pipeline (`flatten_json`,
`json_event_to_line_protocol`), the SSE framing parser inside
`SSEClient.getSSEStream`, and the control flow of `getSSEStream` itself.
Python dictionaries become insertion-ordered association lists with
`dict.update` semantics; fallible code returns `Except`/`Option`.
-/

namespace Beacon

/-- A parsed JSON value, the output of `json.loads`.  `float` carries the
Python `str` rendering of the number, since binary floating-point repr is
outside this embedding; no theorem below depends on its contents. -/
inductive Json where
  | null : Json
  | bool (b : Bool) : Json
  | int (n : Int) : Json
  | float (r : String) : Json
  | str (s : String) : Json
  | arr (xs : List Json) : Json
  | obj (kvs : List (String × Json)) : Json

/-- The module-level constant `IGNORED_FIELDS` of `main.py` (a Python set;
only membership is ever used, so a list is a faithful model). -/
def IGNORED_FIELDS : List String :=
  ["aggregation_bits",
   "signature",
   "data_source_root",
   "data_target_root",
   "block",
   "state",
   "previous_duty_dependent_root",
   "current_duty_dependent_root",
   "signed_header_1_message_parent_root",
   "signed_header_1_message_state_root",
   "signed_header_1_message_body_root",
   "signed_header_1_signature",
   "signed_header_2_message_parent_root",
   "signed_header_2_message_state_root",
   "signed_header_2_message_body_root",
   "signed_header_2_signature",
   "attestation_1_data_source_root",
   "attestation_1_data_target_root",
   "attestation_1_signature",
   "attestation_2_data_source_root",
   "attestation_2_data_target_root",
   "attestation_2_signature",
   "message_from_bls_pubkey",
   "message_to_execution_address",
   "message_contribution_beacon_block_root",
   "old_head_block",
   "new_head_block",
   "old_head_state",
   "new_head_state",
   "message_contribution_aggregation_bits",
   "message_contribution_signature",
   "message_selection_proof",
   "data_attested_header_beacon_parent_root",
   "data_attested_header_beacon_state_root",
   "data_attested_header_beacon_body_root",
   "data_finalized_header_beacon_parent_root",
   "data_finalized_header_beacon_state_root",
   "data_finalized_header_beacon_body_root",
   "data_sync_aggregate_sync_committee_bits",
   "data_sync_aggregate_sync_committee_signature",
   "data_parent_block_root",
   "data_parent_block_hash",
   "data_payload_attributes_prev_randao",
   "data_payload_attributes_suggested_fee_recipient",
   "block_root",
   "kzg_commitment",
   "versioned_hash"]

/-- Python `str.isdigit` on one character.  True for the ASCII digits and
also for Unicode Digit-class characters that are not decimal digits, such
as the Latin-1 superscripts; the model carries the superscripts `¹ ² ³`,
which suffice for the payload characters considered here. -/
def pyCharIsDigit (c : Char) : Bool :=
  c.isDigit || c = '¹' || c = '²' || c = '³'

/-- Python `str.isdigit` on a string: nonempty and every character digit-class. -/
def pyIsDigitStr (s : String) : Bool :=
  !s.data.isEmpty && s.data.all pyCharIsDigit

/-- Python `s.startswith(pre)`. -/
def pyStartsWith (s pre : String) : Bool :=
  pre.data.isPrefixOf s.data

/-- Python `s.strip()`: drop leading and trailing whitespace characters. -/
def pyStripChars (l : List Char) : List Char :=
  ((l.dropWhile Char.isWhitespace).reverse.dropWhile Char.isWhitespace).reverse

/-- Python `s.strip()` on strings. -/
def pyStrip (s : String) : String :=
  String.mk (pyStripChars s.data)

/-- Value of a list of ASCII decimal digits. -/
def decDigitsToNat (l : List Char) : Nat :=
  l.foldl (fun a c => a * 10 + (c.toNat - 48)) 0

/-- Python `int(s)` restricted to the digit-class strings on which
`flatten_json` calls it: succeeds exactly on nonempty all-ASCII-decimal
strings (Unicode `Nd` digits are approximated by ASCII ones); superscript
digits pass `isdigit` but raise `ValueError` in `int`. -/
def pyIntParse (s : String) : Option Nat :=
  if !s.data.isEmpty && s.data.all Char.isDigit then some (decDigitsToNat s.data)
  else none

/-- Split a leading optional sign off a character list; `true` means negative. -/
def stripSign : List Char → Bool × List Char
  | '+' :: rest => (false, rest)
  | '-' :: rest => (true, rest)
  | l => (false, l)

/-- Split the longest ASCII-digit run off the front of a character list. -/
def splitDigits : List Char → List Char × List Char
  | [] => ([], [])
  | c :: rest =>
    if c.isDigit then
      let p := splitDigits rest
      (c :: p.1, p.2)
    else ([], c :: rest)

/-- Parse an unsigned decimal float literal `digits[.digits][(e|E)[sign]digits]`
into mantissa digits value and decimal exponent. -/
def parseFloatCore (l : List Char) : Option (Nat × Int) :=
  let p1 := splitDigits l
  let p2 : List Char × List Char :=
    match p1.2 with
    | '.' :: rest => splitDigits rest
    | _ => ([], p1.2)
  if p1.1.isEmpty && p2.1.isEmpty then none
  else
    let mant := decDigitsToNat (p1.1 ++ p2.1)
    let e0 : Int := -(p2.1.length : Int)
    match p2.2 with
    | [] => some (mant, e0)
    | c :: rest =>
      if c = 'e' || c = 'E' then
        let sg := stripSign rest
        let p3 := splitDigits sg.2
        if p3.1.isEmpty || !p3.2.isEmpty then none
        else
          let ev : Int := (decDigitsToNat p3.1 : Int)
          some (mant, e0 + (if sg.1 then -ev else ev))
      else none

/-- Drop a suffix of zero digits (given the digit list reversed), bumping
the exponent once per dropped zero. -/
def dropZeroSuffix : List Char → Int → List Char × Int
  | '0' :: rest, e => dropZeroSuffix rest (e + 1)
  | l, e => (l, e)

/-- Exact-decimal rendering of `sign * m * 10 ^ e`, point always present.
This agrees with CPython `str(float(...))` on the short decimals exercised
below; the shortest-round-trip repr of large/tiny values is outside scope. -/
def renderFloat (sign : Bool) (m : Nat) (e : Int) : String :=
  if m = 0 then (if sign then "-0.0" else "0.0")
  else
    let p := dropZeroSuffix (toString m).data.reverse e
    let digits := p.1.reverse
    let d := digits.length
    let sgn := if sign then "-" else ""
    if 0 ≤ p.2 then
      sgn ++ String.mk digits ++ String.mk (List.replicate p.2.toNat '0') ++ ".0"
    else
      let k := (-p.2).toNat
      if k < d then
        sgn ++ String.mk (digits.take (d - k)) ++ "." ++ String.mk (digits.drop (d - k))
      else
        sgn ++ "0." ++ String.mk (List.replicate (k - d) '0') ++ String.mk digits

/-- Python `str(float(s))` as one partial function: `some` exactly when
`float(s)` succeeds (decimal literals, infinities, NaN; underscore grouping
and non-ASCII decimal digits are outside the modelled character set). -/
def pyStrFloat (s : String) : Option String :=
  let t := pyStripChars s.data
  let low := String.mk (t.map Char.toLower)
  if low == "inf" || low == "+inf" || low == "infinity" || low == "+infinity" then some "inf"
  else if low == "-inf" || low == "-infinity" then some "-inf"
  else if low == "nan" || low == "+nan" || low == "-nan" then some "nan"
  else
    let sg := stripSign t
    (parseFloatCore sg.2).map (fun me => renderFloat sg.1 me.1 me.2)

/-- Python `d[k] = v` on an insertion-ordered dict as association list:
replace in place when the key exists, append otherwise. -/
def pySet (d : List (String × String)) (k v : String) : List (String × String) :=
  if d.any (fun p => p.1 == k) then
    d.map (fun p => if p.1 == k then (k, v) else p)
  else d ++ [(k, v)]

/-- Python `d.update(new)`: `pySet` each pair of `new` in order. -/
def pyUpdate (d new : List (String × String)) : List (String × String) :=
  new.foldl (fun acc p => pySet acc p.1 p.2) d

mutual

/-- `flatten_json` of `main.py`.  Returns `.error` when the Python function
raises: the only raise site is `int(data)` on an `isdigit`-true string that
`int` rejects (e.g. the superscript `²`).  Note the numeric branches: in
Python `bool` is a subclass of `int`, so boolean leaves are caught by the
`isinstance(data, (int, float))` branch and render as `str(True)`/`str(False)`,
i.e. `True`/`False`; the later `isinstance(data, bool)` branch is unreachable. -/
def flatten_json : Json → String → Except String (List (String × String))
  | .obj kvs, pre => flattenObjList kvs pre []
  | .arr _, _ => .ok []
  | .str s, pre =>
    if pyStartsWith s "0x" then .ok [(pre, "\"" ++ s ++ "\"")]
    else if pyIsDigitStr s then
      match pyIntParse s with
      | some n => .ok [(pre, toString n ++ "i")]
      | none => .error "ValueError"
    else
      match pyStrFloat s with
      | some t => .ok [(pre, t)]
      | none => .ok [(pre, "\"" ++ s ++ "\"")]
  | .int n, pre => .ok [(pre, toString n)]
  | .float r, pre => .ok [(pre, r)]
  | .bool b, pre => .ok [(pre, if b then "True" else "False")]
  | .null, pre => .ok [(pre, "\"None\"")]

/-- The dict loop of `flatten_json`: per entry, build the joined path, skip
entries whose path is in `IGNORED_FIELDS`, otherwise recurse and
`items.update(...)` into the accumulator. -/
def flattenObjList : List (String × Json) → String → List (String × String) →
    Except String (List (String × String))
  | [], _, acc => .ok acc
  | (k, v) :: rest, pre, acc =>
    let key := if pre = "" then k else pre ++ "_" ++ k
    if IGNORED_FIELDS.contains key then flattenObjList rest pre acc
    else
      match flatten_json v key with
      | .error e => .error e
      | .ok items => flattenObjList rest pre (pyUpdate acc items)

end

mutual

/-- Modelled from the spec (claim C7): the flattened paths a payload is
supposed to contribute — every leaf's underscore-joined path, except that a
subtree whose joined path lies in the Ignore-Set is skipped whole, and an
array at any nesting depth contributes nothing. -/
def claimedFieldPaths : Json → String → List String
  | .obj kvs, pre => claimedFieldPathsList kvs pre
  | .arr _, _ => []
  | _, pre => [pre]

/-- Modelled from the spec: the object case of `claimedFieldPaths`. -/
def claimedFieldPathsList : List (String × Json) → String → List String
  | [], _ => []
  | (k, v) :: rest, pre =>
    let key := if pre = "" then k else pre ++ "_" ++ k
    (if IGNORED_FIELDS.contains key then [] else claimedFieldPaths v key) ++
      claimedFieldPathsList rest pre

end

/-- The field map built by `json_event_to_line_protocol` after a successful
parse: `flatten_json(data_json)` followed by `fields["count"] = "1i"`. -/
def encodeFields (j : Json) : Except String (List (String × String)) :=
  match flatten_json j "" with
  | .error e => .error e
  | .ok fields => .ok (pySet fields "count" "1i")

/-- `",".join(f"{k}={v}" for k, v in fields.items())`. -/
def fieldsStr (fs : List (String × String)) : String :=
  String.intercalate "," (fs.map (fun kv => kv.1 ++ "=" ++ kv.2))

/-- Outcome of one call to `json_event_to_line_protocol`: returned `None`
(the `json.JSONDecodeError` path), raised an uncaught exception, or
returned a value. -/
inductive EncodeOutcome (α : Type) where
  | decodeError : EncodeOutcome α
  | raised : String → EncodeOutcome α
  | ok : α → EncodeOutcome α
deriving DecidableEq, Repr

/-- `json_event_to_line_protocol` of `main.py`.  The parse result of
`json.loads(data_str)` is passed in as `parsed` (`none` models the
`JSONDecodeError` case) and the `time.time_ns()` reading as `ts`. -/
def json_event_to_line_protocol (event_type : String) (parsed : Option Json)
    (source network : String) (ts : Nat) : EncodeOutcome String :=
  match parsed with
  | none => .decodeError
  | some j =>
    match encodeFields j with
    | .error e => .raised e
    | .ok fields =>
      .ok ("beacon_event,event_type=" ++ event_type ++ ",source=" ++ source ++
           ",network=" ++ network ++ ",endpoint=/eth/v1/events " ++
           fieldsStr fields ++ " " ++ toString ts)

/-- The LineRecord data model of spec §3, as built by
`json_event_to_line_protocol`: measurement `beacon_event`, the four tags
drawn from the function's parameters and the fixed endpoint constant, the
flattened fields plus `count`, and the encode-time timestamp. -/
structure LineRecord where
  measurement : String
  tags : List (String × String)
  fields : List (String × String)
  timestamp : Nat
deriving DecidableEq, Repr

/-- `json_event_to_line_protocol`, stopped just before interpolation into
the wire line: the record whose serialization the function returns. -/
def encodeRecord (event_type : String) (parsed : Option Json)
    (source network : String) (ts : Nat) : EncodeOutcome LineRecord :=
  match parsed with
  | none => .decodeError
  | some j =>
    match encodeFields j with
    | .error e => .raised e
    | .ok fields =>
      .ok ⟨"beacon_event",
           [("event_type", event_type), ("source", source),
            ("network", network), ("endpoint", "/eth/v1/events")],
           fields, ts⟩

/-- Serialization of a record into the wire line of `main.py`'s f-string. -/
def serializeRecord (r : LineRecord) : String :=
  r.measurement ++ "," ++
  String.intercalate "," (r.tags.map (fun kv => kv.1 ++ "=" ++ kv.2)) ++ " " ++
  fieldsStr r.fields ++ " " ++ toString r.timestamp

/-- Modelled from the spec (§6): escape a tag value by prefixing every
occurrence of space, comma or equals with a backslash. -/
def escapeTagValue (s : String) : String :=
  String.mk (s.data.foldr
    (fun c acc => if c == ' ' || c == ',' || c == '=' then '\\' :: c :: acc else c :: acc) [])

/-- Modelled from the spec: the serializer the escaping claim describes —
identical to `json_event_to_line_protocol` except that each of the four tag
values passes through `escapeTagValue`. -/
def jsonEventToLineProtocolEscaped (event_type : String) (parsed : Option Json)
    (source network : String) (ts : Nat) : EncodeOutcome String :=
  match parsed with
  | none => .decodeError
  | some j =>
    match encodeFields j with
    | .error e => .raised e
    | .ok fields =>
      .ok ("beacon_event,event_type=" ++ escapeTagValue event_type ++
           ",source=" ++ escapeTagValue source ++
           ",network=" ++ escapeTagValue network ++
           (",endpoint=" ++ escapeTagValue "/eth/v1/events" ++ " ") ++
           fieldsStr fields ++ " " ++ toString ts)

/-! ## The SSE framing parser of `SSEClient.getSSEStream` -/

/-- Python truthiness of the `event_type` variable (`None` and the empty
string are falsy). -/
def pyTruthy : Option String → Bool
  | none => false
  | some s => !s.data.isEmpty

/-- One iteration of the `for line in response.iter_lines()` body:
blank lines are skipped; an `event:` line stores the stripped kind; a
`data:` line emits only when the stored kind is truthy and then resets it;
any other line is ignored.  Returns the next state and the emitted event. -/
def sseStep (st : Option String) (line : String) :
    Option String × Option (String × String) :=
  if line == "" then (st, none)
  else if pyStartsWith line "event:" then
    (some (String.mk (pyStripChars (line.data.drop 6))), none)
  else if pyStartsWith line "data:" && pyTruthy st then
    (none, some (st.getD "", String.mk (pyStripChars (line.data.drop 5))))
  else (st, none)

/-- Run the framing loop from a given state over a list of lines,
collecting the dispatched `(event_type, data)` pairs in order. -/
def sseRun : Option String → List String → List (String × String)
  | _, [] => []
  | st, l :: ls =>
    match sseStep st l with
    | (st2, some e) => e :: sseRun st2 ls
    | (st2, none) => sseRun st2 ls

/-- The events dispatched by one connection's framing loop
(`event_type = None` initially). -/
def parseSSELines (lines : List String) : List (String × String) :=
  sseRun none lines

/-- Modelled from the spec: the claimed IDLE/HAVE_KIND state machine, word
for word — an `event:` line always moves to HAVE_KIND with the stripped
kind, a `data:` line while HAVE_KIND emits and returns to IDLE, a `data:`
line while IDLE is dropped silently, blank lines are ignored. -/
def sseStepSpec (st : Option String) (line : String) :
    Option String × Option (String × String) :=
  if line == "" then (st, none)
  else if pyStartsWith line "event:" then
    (some (String.mk (pyStripChars (line.data.drop 6))), none)
  else if pyStartsWith line "data:" then
    match st with
    | some k => (none, some (k, String.mk (pyStripChars (line.data.drop 5))))
    | none => (none, none)
  else (st, none)

/-- Modelled from the spec: run of the claimed state machine. -/
def sseRunSpec : Option String → List String → List (String × String)
  | _, [] => []
  | st, l :: ls =>
    match sseStepSpec st l with
    | (st2, some e) => e :: sseRunSpec st2 ls
    | (st2, none) => sseRunSpec st2 ls

/-- Modelled from the spec: full run of the claimed machine from IDLE. -/
def parseSSELinesSpec (lines : List String) : List (String × String) :=
  sseRunSpec none lines

/-- The amended state machine: as the claimed one, except that an `event:`
line whose kind strips to the empty string leaves the parser in IDLE
(the stored kind must be nonempty for a `data:` line to emit). -/
def sseStepAmended (st : Option String) (line : String) :
    Option String × Option (String × String) :=
  if line == "" then (st, none)
  else if pyStartsWith line "event:" then
    (let k := pyStripChars (line.data.drop 6)
     if k.isEmpty then none else some (String.mk k), none)
  else if pyStartsWith line "data:" then
    match st with
    | some k => (none, some (k, String.mk (pyStripChars (line.data.drop 5))))
    | none => (none, none)
  else (st, none)

/-- Run of the amended machine. -/
def sseRunAmended : Option String → List String → List (String × String)
  | _, [] => []
  | st, l :: ls =>
    match sseStepAmended st l with
    | (st2, some e) => e :: sseRunAmended st2 ls
    | (st2, none) => sseRunAmended st2 ls

/-- Full run of the amended machine from IDLE. -/
def parseSSELinesAmended (lines : List String) : List (String × String) :=
  sseRunAmended none lines

/-! ## The control flow of `SSEClient.getSSEStream` -/

/-- One iteration of the `while not self.stop_event.is_set()` loop, seen
through its observable outcome: either `requests.get` raised a
`RequestException`, or a response arrived with a status code, a list of
body lines, and possibly a read failure/timeout after those lines. -/
inductive Attempt where
  | requestException : Attempt
  | response (status : Nat) (lines : List String) (midStreamError : Bool) : Attempt
deriving DecidableEq, Repr

/-- What a whole `getSSEStream` call did: the `(event_type, data)` pairs it
dispatched, how many `time.sleep(self.retry_delay)` retries it performed
internally, and whether any exception escaped to the caller. -/
structure SSEOutcome where
  dispatched : List (String × String)
  retrySleeps : Nat
  raised : Bool
deriving DecidableEq, Repr

/-- `SSEClient.getSSEStream`, one loop iteration per attempt; the loop ends
when `stop_event` is observed (here: when the attempt list is exhausted).
A non-200 status logs, sleeps and `continue`s; a `RequestException`
(including timeouts) is caught by the first `except` clause; any other
exception by the `except Exception` clause — every branch sleeps and
retries, so nothing propagates to the caller. -/
def getSSEStream : List Attempt → SSEOutcome
  | [] => ⟨[], 0, false⟩
  | .requestException :: rest =>
    let t := getSSEStream rest
    ⟨t.dispatched, t.retrySleeps + 1, t.raised⟩
  | .response status lines midErr :: rest =>
    let t := getSSEStream rest
    if status ≠ 200 then ⟨t.dispatched, t.retrySleeps + 1, t.raised⟩
    else if midErr then
      ⟨parseSSELines lines ++ t.dispatched, t.retrySleeps + 1, t.raised⟩
    else
      ⟨parseSSELines lines ++ t.dispatched, t.retrySleeps, t.raised⟩

/-- An attempt on which the Python loop performs an internal
`retry_delay` sleep: failed connect, non-success status, or a mid-stream
read failure. -/
def isFailureAttempt : Attempt → Bool
  | .requestException => true
  | .response status _ midErr => status ≠ 200 || midErr

/-- A payload whose top-level value is neither an object nor an array. -/
def IsScalarJson : Json → Bool
  | .obj _ => false
  | .arr _ => false
  | _ => true

/-- A tag value containing none of the three characters the spec's escaping
rule targets (space, comma, equals). -/
def noTagSpecial (s : String) : Prop :=
  ∀ c ∈ s.data, ¬(c = ' ' ∨ c = ',' ∨ c = '=')

instance (s : String) : Decidable (noTagSpecial s) := by
  unfold noTagSpecial
  exact List.decidableBAll _ s.data

/-- Collapse the two Python-falsy parser states (`None` and the empty
string) to `none`; the amended state machine runs on normalized states. -/
def normState : Option String → Option String
  | none => none
  | some s => if s.data.isEmpty then none else some s

/-! ## Helper lemmas -/

theorem pySet_keys_mem (d : List (String × String)) (k v kk : String) :
    kk ∈ (pySet d k v).map Prod.fst ↔ kk ∈ d.map Prod.fst ∨ kk = k := by
  unfold pySet
  by_cases h : (d.any fun p => p.1 == k) = true
  · rw [if_pos h, List.map_map]
    have hmap : d.map (Prod.fst ∘ fun p => if p.1 == k then (k, v) else p) =
        d.map Prod.fst := by
      apply List.map_congr_left
      intro p _
      by_cases hp : p.1 = k
      · simp [hp]
      · simp [hp]
    rw [hmap]
    have hk : k ∈ d.map Prod.fst := by
      simp only [List.any_eq_true] at h
      obtain ⟨p, hp, hpk⟩ := h
      simp only [beq_iff_eq] at hpk
      exact hpk ▸ List.mem_map_of_mem Prod.fst hp
    constructor
    · exact Or.inl
    · rintro (hmem | rfl)
      · exact hmem
      · exact hk
  · rw [if_neg h]
    simp

theorem pyUpdate_keys_mem (new d : List (String × String)) (kk : String) :
    kk ∈ (pyUpdate d new).map Prod.fst ↔
      kk ∈ d.map Prod.fst ∨ kk ∈ new.map Prod.fst := by
  induction new generalizing d with
  | nil => simp [pyUpdate]
  | cons p rest ih =>
    have hstep : pyUpdate d (p :: rest) = pyUpdate (pySet d p.1 p.2) rest := rfl
    rw [hstep, ih, pySet_keys_mem]
    simp only [List.map_cons, List.mem_cons]
    tauto

theorem lookup_map_replace (k v : String) : ∀ d : List (String × String),
    (d.any fun p => p.1 == k) = true →
    (d.map fun p => if p.1 == k then (k, v) else p).lookup k = some v := by
  intro d
  induction d with
  | nil => simp
  | cons p rest ih =>
    obtain ⟨pk, pv⟩ := p
    intro h
    by_cases hp : pk = k
    · subst hp
      simp only [List.map_cons]
      rw [show (if (pk, pv).1 == pk then (pk, v) else (pk, pv)) = (pk, v) by simp]
      simp [List.lookup]
    · have h2 : (rest.any fun p => p.1 == k) = true := by
        simpa [hp] using h
      have hb : (k == pk) = false := by simp [Ne.symm hp]
      simp only [List.map_cons]
      rw [show (if (pk, pv).1 == k then (k, v) else (pk, pv)) = (pk, pv) by simp [hp]]
      simpa [List.lookup, hb] using ih h2

theorem lookup_append_self (k v : String) : ∀ d : List (String × String),
    (d.any fun p => p.1 == k) = false →
    (d ++ [(k, v)]).lookup k = some v := by
  intro d
  induction d with
  | nil => simp [List.lookup]
  | cons p rest ih =>
    obtain ⟨pk, pv⟩ := p
    intro h
    have hp : ¬(pk = k) := by
      intro hc
      simp [hc] at h
    have h2 : (rest.any fun p => p.1 == k) = false := by
      simpa [hp] using h
    have hb : (k == pk) = false := by simp [Ne.symm hp]
    rw [List.cons_append]
    simpa [List.lookup, hb] using ih h2

theorem lookup_pySet_self (d : List (String × String)) (k v : String) :
    (pySet d k v).lookup k = some v := by
  unfold pySet
  by_cases h : (d.any fun p => p.1 == k) = true
  · rw [if_pos h]
    exact lookup_map_replace k v d h
  · rw [if_neg h]
    rw [Bool.not_eq_true] at h
    exact lookup_append_self k v d h

theorem escape_foldr_id (l : List Char)
    (h : ∀ c ∈ l, ¬(c = ' ' ∨ c = ',' ∨ c = '=')) :
    l.foldr (fun c acc =>
      if c == ' ' || c == ',' || c == '=' then '\\' :: c :: acc else c :: acc) [] = l := by
  induction l with
  | nil => rfl
  | cons c rest ih =>
    have hc := h c (List.mem_cons_self c rest)
    push_neg at hc
    simp only [List.foldr_cons]
    rw [if_neg (by simp [hc.1, hc.2.1, hc.2.2])]
    rw [ih (fun c hc2 => h c (List.mem_cons_of_mem _ hc2))]

theorem escapeTagValue_eq_self (s : String) (h : noTagSpecial s) :
    escapeTagValue s = s := by
  cases s with
  | mk l =>
    unfold escapeTagValue
    exact congrArg String.mk (escape_foldr_id l h)

theorem sseStep_norm (st : Option String) (l : String) :
    (sseStepAmended (normState st) l).2 = (sseStep st l).2 ∧
    (sseStepAmended (normState st) l).1 = normState (sseStep st l).1 := by
  unfold sseStep sseStepAmended
  by_cases h0 : (l == "") = true
  · simp [h0]
  · by_cases h1 : pyStartsWith l "event:" = true
    · simp [h0, h1, normState]
    · by_cases h2 : pyStartsWith l "data:" = true
      · cases st with
        | none => simp [h0, h1, h2, pyTruthy, normState]
        | some s =>
          by_cases hs : s.data.isEmpty = true
          · simp [h0, h1, h2, pyTruthy, hs, normState]
          · simp [h0, h1, h2, pyTruthy, hs, normState]
      · cases st with
        | none => simp [h0, h1, h2, normState]
        | some s => simp [h0, h1, h2, normState]

theorem sseRun_amended_eq (ls : List String) : ∀ st,
    sseRunAmended (normState st) ls = sseRun st ls := by
  induction ls with
  | nil => intro st; rfl
  | cons l rest ih =>
    intro st
    cases hst : sseStep st l with
    | mk st2 ev =>
      have h := sseStep_norm st l
      rw [hst] at h
      have hA : sseStepAmended (normState st) l = (normState st2, ev) :=
        Prod.ext h.2 h.1
      cases ev with
      | none =>
        simp only [sseRunAmended, sseRun, hst, hA]
        exact ih st2
      | some e =>
        simp only [sseRunAmended, sseRun, hst, hA]
        rw [ih st2]

mutual

theorem flatten_json_keys : ∀ (j : Json) (pre : String) (fs : List (String × String)),
    flatten_json j pre = Except.ok fs →
    ∀ kk, kk ∈ fs.map Prod.fst ↔ kk ∈ claimedFieldPaths j pre
  | .obj kvs, pre, fs, h, kk => by
    simp only [flatten_json] at h
    have := flattenObjList_keys kvs pre [] fs h kk
    simpa [claimedFieldPaths] using this
  | .arr xs, pre, fs, h, kk => by
    simp only [flatten_json, Except.ok.injEq] at h
    subst h
    simp [claimedFieldPaths]
  | .str s, pre, fs, h, kk => by
    simp only [flatten_json] at h
    by_cases h0 : pyStartsWith s "0x" = true
    · rw [if_pos h0] at h
      simp only [Except.ok.injEq] at h
      subst h
      simp [claimedFieldPaths]
    · rw [if_neg h0] at h
      by_cases h1 : pyIsDigitStr s = true
      · rw [if_pos h1] at h
        cases hip : pyIntParse s with
        | none => rw [hip] at h; exact absurd h (by simp)
        | some n =>
          rw [hip] at h
          simp only [Except.ok.injEq] at h
          subst h
          simp [claimedFieldPaths]
      · rw [if_neg h1] at h
        cases hf : pyStrFloat s with
        | none =>
          rw [hf] at h
          simp only [Except.ok.injEq] at h
          subst h
          simp [claimedFieldPaths]
        | some t =>
          rw [hf] at h
          simp only [Except.ok.injEq] at h
          subst h
          simp [claimedFieldPaths]
  | .int n, pre, fs, h, kk => by
    simp only [flatten_json, Except.ok.injEq] at h
    subst h
    simp [claimedFieldPaths]
  | .float r, pre, fs, h, kk => by
    simp only [flatten_json, Except.ok.injEq] at h
    subst h
    simp [claimedFieldPaths]
  | .bool b, pre, fs, h, kk => by
    simp only [flatten_json, Except.ok.injEq] at h
    subst h
    simp [claimedFieldPaths]
  | .null, pre, fs, h, kk => by
    simp only [flatten_json, Except.ok.injEq] at h
    subst h
    simp [claimedFieldPaths]

theorem flattenObjList_keys : ∀ (kvs : List (String × Json)) (pre : String)
    (acc fs : List (String × String)),
    flattenObjList kvs pre acc = Except.ok fs →
    ∀ kk, kk ∈ fs.map Prod.fst ↔
      kk ∈ acc.map Prod.fst ∨ kk ∈ claimedFieldPathsList kvs pre
  | [], pre, acc, fs, h, kk => by
    simp only [flattenObjList, Except.ok.injEq] at h
    subst h
    simp [claimedFieldPathsList]
  | (k, v) :: rest, pre, acc, fs, h, kk => by
    simp only [flattenObjList] at h
    by_cases hig : IGNORED_FIELDS.contains (if pre = "" then k else pre ++ "_" ++ k) = true
    · rw [if_pos hig] at h
      have := flattenObjList_keys rest pre acc fs h kk
      simp only [claimedFieldPathsList]
      rw [if_pos hig]
      simpa using this
    · rw [if_neg hig] at h
      cases hfv : flatten_json v (if pre = "" then k else pre ++ "_" ++ k) with
      | error e => rw [hfv] at h; exact absurd h (by simp)
      | ok items =>
        rw [hfv] at h
        have h1 := flattenObjList_keys rest pre (pyUpdate acc items) fs h kk
        have h2 := flatten_json_keys v _ items hfv kk
        have h3 := pyUpdate_keys_mem items acc kk
        simp only [claimedFieldPathsList]
        rw [if_neg hig]
        rw [h1, h3, h2]
        simp only [List.mem_append]
        tauto

end

theorem flatten_scalar_shape (j : Json) (pre : String)
    (fs : List (String × String)) (hs : IsScalarJson j = true)
    (h : flatten_json j pre = Except.ok fs) : ∃ v, fs = [(pre, v)] := by
  cases j with
  | obj kvs => simp [IsScalarJson] at hs
  | arr xs => simp [IsScalarJson] at hs
  | str s =>
    simp only [flatten_json] at h
    by_cases h0 : pyStartsWith s "0x" = true
    · rw [if_pos h0] at h
      simp only [Except.ok.injEq] at h
      exact ⟨_, h.symm⟩
    · rw [if_neg h0] at h
      by_cases h1 : pyIsDigitStr s = true
      · rw [if_pos h1] at h
        cases hip : pyIntParse s with
        | none => rw [hip] at h; exact absurd h (by simp)
        | some n =>
          rw [hip] at h
          simp only [Except.ok.injEq] at h
          exact ⟨_, h.symm⟩
      · rw [if_neg h1] at h
        cases hf : pyStrFloat s with
        | none =>
          rw [hf] at h
          simp only [Except.ok.injEq] at h
          exact ⟨_, h.symm⟩
        | some t =>
          rw [hf] at h
          simp only [Except.ok.injEq] at h
          exact ⟨_, h.symm⟩
  | int n =>
    simp only [flatten_json, Except.ok.injEq] at h
    exact ⟨_, h.symm⟩
  | float r =>
    simp only [flatten_json, Except.ok.injEq] at h
    exact ⟨_, h.symm⟩
  | bool b =>
    simp only [flatten_json, Except.ok.injEq] at h
    exact ⟨_, h.symm⟩
  | null =>
    simp only [flatten_json, Except.ok.injEq] at h
    exact ⟨_, h.symm⟩

/-! ## Claims -/

/-- C1, counterexample: the claim says a failed initial connect makes
`getSSEStream` raise `ConnectionError` to its caller rather than retrying
internally.  On a single connect attempt answered with status 500, the code
raises nothing to the caller and performs one internal retry sleep. -/
theorem C1_counterexample :
    (getSSEStream [Attempt.response 500 [] false]).raised = false ∧
    (getSSEStream [Attempt.response 500 [] false]).retrySleeps = 1 :=
  ⟨rfl, rfl⟩

/-- C1, amended: `getSSEStream` never raises to its caller — a non-success
connect status, a connect exception, and a mid-stream read failure or
timeout are all caught inside `getSSEStream`, which sleeps `retry_delay`
once per such failure and reconnects itself; it returns cleanly only when
the stop signal is observed.  The Source Supervisor's `try`/`except`
wrapper is therefore never exercised by these failures. -/
theorem C1_never_raises_retries_internally (attempts : List Attempt) :
    (getSSEStream attempts).raised = false ∧
    (getSSEStream attempts).retrySleeps =
      (attempts.filter isFailureAttempt).length := by
  induction attempts with
  | nil => exact ⟨rfl, rfl⟩
  | cons a rest ih =>
    cases a with
    | requestException =>
      simp only [getSSEStream, List.filter_cons]
      rw [if_pos (by simp [isFailureAttempt])]
      exact ⟨ih.1, by simp [ih.2]⟩
    | response status lines midErr =>
      by_cases hs : status = 200
      · subst hs
        cases midErr <;>
          simp [getSSEStream, isFailureAttempt, List.filter_cons, ih.1, ih.2]
      · simp [getSSEStream, isFailureAttempt, List.filter_cons, hs, ih.1, ih.2]

/-- C2: evaluation at the failing input of the code bug.  The claim (and
spec) call for `flag=true` and `n=7i`; the code renders the boolean as
Python's `str(True)` because `bool` is a subclass of `int` and the
`isinstance(data, (int, float))` branch fires first (the dedicated boolean
branch below it is unreachable), and renders the native integer without the
`i` suffix. -/
theorem C2_native_scalar_rendering :
    flatten_json (Json.obj [("flag", Json.bool true), ("n", Json.int 7)]) "" =
      Except.ok [("flag", "True"), ("n", "7")] := rfl

/-- C3, counterexample: the claim says tag values are escaped for space,
comma and equals.  With event type `a b` the code emits the tag verbatim
(`event_type=a b`), while the spec's escaping serializer emits
`event_type=a\ b`; the two wire lines differ. -/
theorem C3_counterexample :
    json_event_to_line_protocol "a b" (some (Json.obj [])) "s" "n" 0 =
      EncodeOutcome.ok
        "beacon_event,event_type=a b,source=s,network=n,endpoint=/eth/v1/events count=1i 0" ∧
    jsonEventToLineProtocolEscaped "a b" (some (Json.obj [])) "s" "n" 0 =
      EncodeOutcome.ok
        "beacon_event,event_type=a\\ b,source=s,network=n,endpoint=/eth/v1/events count=1i 0" :=
  ⟨rfl, rfl⟩

/-- C3, amended: serialization inserts tag values verbatim, with no
escaping at all; it therefore coincides with the spec's escaping serializer
exactly when each caller-supplied tag value contains no space, comma or
equals character. -/
theorem C3_tags_verbatim (event_type : String) (parsed : Option Json)
    (source network : String) (ts : Nat) (h1 : noTagSpecial event_type)
    (h2 : noTagSpecial source) (h3 : noTagSpecial network) :
    json_event_to_line_protocol event_type parsed source network ts =
      jsonEventToLineProtocolEscaped event_type parsed source network ts := by
  unfold json_event_to_line_protocol jsonEventToLineProtocolEscaped
  cases parsed with
  | none => rfl
  | some j =>
    cases hf : encodeFields j with
    | error e => simp only [hf]
    | ok fields =>
      simp only [hf]
      rw [escapeTagValue_eq_self _ h1, escapeTagValue_eq_self _ h2,
        escapeTagValue_eq_self _ h3]
      rfl

/-- C3, witness for the amended theorem at concrete special-character-free
tag values. -/
theorem C3_witness :
    json_event_to_line_protocol "heartbeat" (some (Json.obj [])) "nodeA" "mainnet" 0 =
      jsonEventToLineProtocolEscaped "heartbeat" (some (Json.obj [])) "nodeA" "mainnet" 0 :=
  C3_tags_verbatim "heartbeat" (some (Json.obj [])) "nodeA" "mainnet" 0
    (by decide) (by decide) (by decide)

/-- C4: evaluation at the failing input of the code bug.  The payload
`{"x": "²"}` is valid JSON, yet encoding raises an uncaught `ValueError`
instead of producing a record: `"²".isdigit()` is true, so `flatten_json`
calls `int("²")`, which rejects the superscript digit; the claim (and
spec) promise a record for every valid-JSON payload. -/
theorem C4_raises_on_digit_class_string :
    json_event_to_line_protocol "head" (some (Json.obj [("x", Json.str "²")])) "s" "n" 0 =
      EncodeOutcome.raised "ValueError" := rfl

/-- C5, counterexample: the claim says tag keys and field keys are disjoint
in every record.  The payload `{"event_type": "x"}` produces a field named
`event_type`, which is also a tag key of the same record. -/
theorem C5_counterexample :
    encodeRecord "head" (some (Json.obj [("event_type", Json.str "x")])) "s" "n" 0 =
      EncodeOutcome.ok
        ⟨"beacon_event",
         [("event_type", "head"), ("source", "s"), ("network", "n"),
          ("endpoint", "/eth/v1/events")],
         [("event_type", "\"x\""), ("count", "1i")], 0⟩ ∧
    "event_type" ∈
      ([("event_type", "\"x\""), ("count", "1i")] : List (String × String)).map Prod.fst ∧
    "event_type" ∈
      ([("event_type", "head"), ("source", "s"), ("network", "n"),
        ("endpoint", "/eth/v1/events")] : List (String × String)).map Prod.fst :=
  ⟨rfl, by simp, by simp⟩

/-- C5, amended: the tag keys of every successfully encoded record are
always exactly the fixed four `event_type, source, network, endpoint`,
drawn from the call's parameters and a constant — never from the payload;
field keys, however, come from payload paths and may coincide with a tag
name, so tag/field key disjointness does not hold in general. -/
theorem C5_tags_fixed (event_type : String) (parsed : Option Json)
    (source network : String) (ts : Nat) (r : LineRecord)
    (h : encodeRecord event_type parsed source network ts = EncodeOutcome.ok r) :
    r.tags.map Prod.fst = ["event_type", "source", "network", "endpoint"] := by
  cases parsed with
  | none => exact absurd h (by simp [encodeRecord])
  | some j =>
    simp only [encodeRecord] at h
    cases hf : encodeFields j with
    | error e =>
      rw [hf] at h
      exact absurd h (by simp)
    | ok fields =>
      rw [hf] at h
      simp only [EncodeOutcome.ok.injEq] at h
      subst h
      rfl

/-- C5, witness for the amended theorem at a concrete record. -/
theorem C5_witness :
    (LineRecord.mk "beacon_event"
      [("event_type", "t"), ("source", "s"), ("network", "n"),
       ("endpoint", "/eth/v1/events")]
      [("count", "1i")] 0).tags.map Prod.fst =
      ["event_type", "source", "network", "endpoint"] :=
  C5_tags_fixed "t" (some (Json.obj [])) "s" "n" 0 _ rfl

/-- C6, counterexample: the claim's machine moves to HAVE_KIND on every
`event:` line and emits on the next `data:` line.  On the lines
`["event:", "data: x"]` the claimed machine emits the event `("", "x")`,
but the code emits nothing: the buffered kind is the empty string, which is
falsy in the `and event_type` test. -/
theorem C6_counterexample :
    parseSSELines ["event:", "data: x"] = [] ∧
    parseSSELinesSpec ["event:", "data: x"] = [("", "x")] :=
  ⟨rfl, rfl⟩

/-- C6, amended: the parser follows the claimed IDLE/HAVE_KIND machine with
one refinement — an `event:` line whose kind strips to the empty string
leaves the parser in IDLE, so a following `data:` line emits only when the
buffered kind is nonempty.  The code run coincides with the amended machine
on every line sequence. -/
theorem C6_state_machine (lines : List String) :
    parseSSELines lines = parseSSELinesAmended lines :=
  (sseRun_amended_eq lines none).symm

/-- C7: for every payload on which flattening returns, the flattened field
keys are exactly the paths of the payload's leaves, excluding whole
subtrees whose joined path is in the Ignore-Set and excluding arrays at any
nesting depth; in particular the payload with an `items` array of three
numbers encodes to a record with no payload-derived field at all. -/
theorem C7_excluded_subtrees :
    (∀ (j : Json) (fs : List (String × String)),
      flatten_json j "" = Except.ok fs →
      ∀ kk, kk ∈ fs.map Prod.fst ↔ kk ∈ claimedFieldPaths j "") ∧
    encodeFields (Json.obj [("items", Json.arr [Json.int 1, Json.int 2, Json.int 3])]) =
      Except.ok [("count", "1i")] :=
  ⟨fun j fs h kk => flatten_json_keys j "" fs h kk, rfl⟩

/-- C7, witness at the array example of the claim. -/
theorem C7_witness :
    "items" ∈ ([] : List (String × String)).map Prod.fst ↔
      "items" ∈ claimedFieldPaths
        (Json.obj [("items", Json.arr [Json.int 1, Json.int 2, Json.int 3])]) "" :=
  C7_excluded_subtrees.1
    (Json.obj [("items", Json.arr [Json.int 1, Json.int 2, Json.int 3])]) [] rfl "items"

/-- C8, counterexample: the claim's final rule says any string that is not
`0x`-prefixed, not all decimal digits and not float-parseable becomes a
quoted-string field.  The superscript string `²` fits no earlier rule yet
is not quoted either: `isdigit` accepts it, `int()` rejects it, and
flattening raises `ValueError`. -/
theorem C8_counterexample :
    flatten_json (Json.str "²") "r" = Except.error "ValueError" ∧
    flatten_json (Json.str "²") "r" ≠ Except.ok [("r", "\"²\"")] := by
  refine ⟨rfl, ?_⟩
  intro h
  rw [show flatten_json (Json.str "²") "r" = Except.error "ValueError" from rfl] at h
  exact Except.noConfusion h

/-- C8, amended: string-leaf type inference applies the rules in order —
`0x` prefix → quoted; `isdigit`-true and accepted by `int()` → integer
suffixed `i`; otherwise float-parseable → float text; otherwise → quoted —
where an `isdigit`-true string rejected by `int()` (such as `²`) raises
instead of being quoted.  The claim's three round-trip examples hold as
stated. -/
theorem C8_string_inference :
    (∀ s pre, pyStartsWith s "0x" = true →
      flatten_json (Json.str s) pre = Except.ok [(pre, "\"" ++ s ++ "\"")]) ∧
    (∀ s pre n, pyStartsWith s "0x" = false → pyIsDigitStr s = true →
      pyIntParse s = some n →
      flatten_json (Json.str s) pre = Except.ok [(pre, toString n ++ "i")]) ∧
    (∀ s pre t, pyStartsWith s "0x" = false → pyIsDigitStr s = false →
      pyStrFloat s = some t →
      flatten_json (Json.str s) pre = Except.ok [(pre, t)]) ∧
    (∀ s pre, pyStartsWith s "0x" = false → pyIsDigitStr s = false →
      pyStrFloat s = none →
      flatten_json (Json.str s) pre = Except.ok [(pre, "\"" ++ s ++ "\"")]) ∧
    encodeFields (Json.obj [("a", Json.obj [("b", Json.str "0x1234")])]) =
      Except.ok [("a_b", "\"0x1234\""), ("count", "1i")] ∧
    encodeFields (Json.obj [("slot", Json.str "123")]) =
      Except.ok [("slot", "123i"), ("count", "1i")] ∧
    encodeFields (Json.obj [("ratio", Json.str "1.5")]) =
      Except.ok [("ratio", "1.5"), ("count", "1i")] := by
  refine ⟨?_, ?_, ?_, ?_, rfl, rfl, rfl⟩
  · intro s pre h
    simp [flatten_json, h]
  · intro s pre n h0 h1 h2
    simp [flatten_json, h0, h1, h2]
  · intro s pre t h0 h1 h2
    simp [flatten_json, h0, h1, h2]
  · intro s pre h0 h1 h2
    simp [flatten_json, h0, h1, h2]

/-- C8, witness for the amended rules at the digit-string example. -/
theorem C8_witness :
    flatten_json (Json.str "123") "slot" = Except.ok [("slot", "123i")] :=
  C8_string_inference.2.1 "123" "slot" 123 rfl rfl rfl

/-- C9: every successfully encoded field map carries the synthetic
`count = 1i` integer field, added after flattening; a payload-supplied
`count` value is overwritten by the synthetic one. -/
theorem C9_count_always_one (j : Json) (fs : List (String × String))
    (h : encodeFields j = Except.ok fs) : fs.lookup "count" = some "1i" := by
  unfold encodeFields at h
  cases hf : flatten_json j "" with
  | error e => rw [hf] at h; exact absurd h (by simp)
  | ok l =>
    rw [hf] at h
    simp only [Except.ok.injEq] at h
    subst h
    exact lookup_pySet_self l "count" "1i"

/-- C9, witness at a payload that itself carries a top-level `count` key. -/
theorem C9_witness :
    ([("count", "1i")] : List (String × String)).lookup "count" = some "1i" :=
  C9_count_always_one (Json.obj [("count", Json.int 5)]) [("count", "1i")] rfl

/-- C10, counterexample: the claim promises a record for every valid JSON
payload whose top level is a scalar, but the scalar payload `"²"` (a valid
JSON string) makes encoding raise `ValueError` instead of returning a
record. -/
theorem C10_counterexample :
    json_event_to_line_protocol "t" (some (Json.str "²")) "s" "n" 0 =
      EncodeOutcome.raised "ValueError" := rfl

/-- C10, amended: for every valid JSON payload whose top-level value is a
scalar and on which flattening returns (all scalars except `isdigit`-true
strings rejected by `int()`), the record's payload-derived fields are
exactly one field whose name is the empty string, followed by the synthetic
`count` field, so the serialized line carries a field entry with an empty
key. -/
theorem C10_root_scalar_empty_field (j : Json) (fs : List (String × String))
    (hs : IsScalarJson j = true) (h : flatten_json j "" = Except.ok fs) :
    ∃ v, fs = [("", v)] ∧ encodeFields j = Except.ok [("", v), ("count", "1i")] := by
  obtain ⟨v, rfl⟩ := flatten_scalar_shape j "" fs hs h
  refine ⟨v, rfl, ?_⟩
  unfold encodeFields
  rw [h]
  show Except.ok (pySet [("", v)] "count" "1i") = Except.ok [("", v), ("count", "1i")]
  unfold pySet
  rw [if_neg (by simp)]
  rfl

/-- C10, witness at the scalar payload `5`. -/
theorem C10_witness :
    ∃ v, [(("" : String), ("5" : String))] = [("", v)] ∧
      encodeFields (Json.int 5) = Except.ok [("", v), ("count", "1i")] :=
  C10_root_scalar_empty_field (Json.int 5) [("", "5")] rfl rfl

end Beacon
